import Mathlib

/-!
Verification of the vanity-address search and the Flap token-lifecycle
helpers of `src/services/flap/flap.ts`.

The TypeScript code delegates hashing and CREATE2 address derivation to
viem (`keccak256`, `getContractAddress`).  Both are embedded here as
executable Lean functions: a full Keccak-256 (original Keccak padding, as
used by Ethereum) over byte lists, with the state kept as 25 explicit
64-bit lanes, and the CREATE2 formula
`keccak256(0xff ++ deployer ++ salt ++ keccak256(bytecode))[12..]`.
Bytes are `Nat`s below 256; 64-bit lanes are `Nat`s reduced mod 2^64.
-/

/-! ## Keccak-256 -/

def mask64 : Nat := 2 ^ 64 - 1

def rotl64 (x n : Nat) : Nat :=
  ((x <<< n) ||| (x >>> (64 - n))) &&& mask64

def not64 (x : Nat) : Nat := x ^^^ mask64

/-- The Keccak-f[1600] state: 25 lanes of 64 bits, flat index `x + 5*y`. -/
structure KState where
  a0 : Nat
  a1 : Nat
  a2 : Nat
  a3 : Nat
  a4 : Nat
  a5 : Nat
  a6 : Nat
  a7 : Nat
  a8 : Nat
  a9 : Nat
  a10 : Nat
  a11 : Nat
  a12 : Nat
  a13 : Nat
  a14 : Nat
  a15 : Nat
  a16 : Nat
  a17 : Nat
  a18 : Nat
  a19 : Nat
  a20 : Nat
  a21 : Nat
  a22 : Nat
  a23 : Nat
  a24 : Nat

def keccakRC : List Nat :=
  [0x0000000000000001, 0x0000000000008082, 0x800000000000808a, 0x8000000080008000,
   0x000000000000808b, 0x0000000080000001, 0x8000000080008081, 0x8000000000008009,
   0x000000000000008a, 0x0000000000000088, 0x0000000080008009, 0x000000008000000a,
   0x000000008000808b, 0x800000000000008b, 0x8000000000008089, 0x8000000000008003,
   0x8000000000008002, 0x8000000000000080, 0x000000000000800a, 0x800000008000000a,
   0x8000000080008081, 0x8000000000008080, 0x0000000080000001, 0x8000000080008008]

/-- One Keccak-f round (theta, rho, pi, chi, iota), fully unrolled. -/
def keccakRound (s : KState) (rc : Nat) : KState :=
  let c0 := s.a0 ^^^ s.a5 ^^^ s.a10 ^^^ s.a15 ^^^ s.a20
  let c1 := s.a1 ^^^ s.a6 ^^^ s.a11 ^^^ s.a16 ^^^ s.a21
  let c2 := s.a2 ^^^ s.a7 ^^^ s.a12 ^^^ s.a17 ^^^ s.a22
  let c3 := s.a3 ^^^ s.a8 ^^^ s.a13 ^^^ s.a18 ^^^ s.a23
  let c4 := s.a4 ^^^ s.a9 ^^^ s.a14 ^^^ s.a19 ^^^ s.a24
  let d0 := c4 ^^^ rotl64 c1 1
  let d1 := c0 ^^^ rotl64 c2 1
  let d2 := c1 ^^^ rotl64 c3 1
  let d3 := c2 ^^^ rotl64 c4 1
  let d4 := c3 ^^^ rotl64 c0 1
  let t0 := s.a0 ^^^ d0
  let t1 := s.a1 ^^^ d1
  let t2 := s.a2 ^^^ d2
  let t3 := s.a3 ^^^ d3
  let t4 := s.a4 ^^^ d4
  let t5 := s.a5 ^^^ d0
  let t6 := s.a6 ^^^ d1
  let t7 := s.a7 ^^^ d2
  let t8 := s.a8 ^^^ d3
  let t9 := s.a9 ^^^ d4
  let t10 := s.a10 ^^^ d0
  let t11 := s.a11 ^^^ d1
  let t12 := s.a12 ^^^ d2
  let t13 := s.a13 ^^^ d3
  let t14 := s.a14 ^^^ d4
  let t15 := s.a15 ^^^ d0
  let t16 := s.a16 ^^^ d1
  let t17 := s.a17 ^^^ d2
  let t18 := s.a18 ^^^ d3
  let t19 := s.a19 ^^^ d4
  let t20 := s.a20 ^^^ d0
  let t21 := s.a21 ^^^ d1
  let t22 := s.a22 ^^^ d2
  let t23 := s.a23 ^^^ d3
  let t24 := s.a24 ^^^ d4
  let b0 := t0
  let b1 := rotl64 t6 44
  let b2 := rotl64 t12 43
  let b3 := rotl64 t18 21
  let b4 := rotl64 t24 14
  let b5 := rotl64 t3 28
  let b6 := rotl64 t9 20
  let b7 := rotl64 t10 3
  let b8 := rotl64 t16 45
  let b9 := rotl64 t22 61
  let b10 := rotl64 t1 1
  let b11 := rotl64 t7 6
  let b12 := rotl64 t13 25
  let b13 := rotl64 t19 8
  let b14 := rotl64 t20 18
  let b15 := rotl64 t4 27
  let b16 := rotl64 t5 36
  let b17 := rotl64 t11 10
  let b18 := rotl64 t17 15
  let b19 := rotl64 t23 56
  let b20 := rotl64 t2 62
  let b21 := rotl64 t8 55
  let b22 := rotl64 t14 39
  let b23 := rotl64 t15 41
  let b24 := rotl64 t21 2
  ⟨(b0 ^^^ (not64 b1 &&& b2)) ^^^ rc,
   b1 ^^^ (not64 b2 &&& b3),
   b2 ^^^ (not64 b3 &&& b4),
   b3 ^^^ (not64 b4 &&& b0),
   b4 ^^^ (not64 b0 &&& b1),
   b5 ^^^ (not64 b6 &&& b7),
   b6 ^^^ (not64 b7 &&& b8),
   b7 ^^^ (not64 b8 &&& b9),
   b8 ^^^ (not64 b9 &&& b5),
   b9 ^^^ (not64 b5 &&& b6),
   b10 ^^^ (not64 b11 &&& b12),
   b11 ^^^ (not64 b12 &&& b13),
   b12 ^^^ (not64 b13 &&& b14),
   b13 ^^^ (not64 b14 &&& b10),
   b14 ^^^ (not64 b10 &&& b11),
   b15 ^^^ (not64 b16 &&& b17),
   b16 ^^^ (not64 b17 &&& b18),
   b17 ^^^ (not64 b18 &&& b19),
   b18 ^^^ (not64 b19 &&& b15),
   b19 ^^^ (not64 b15 &&& b16),
   b20 ^^^ (not64 b21 &&& b22),
   b21 ^^^ (not64 b22 &&& b23),
   b22 ^^^ (not64 b23 &&& b24),
   b23 ^^^ (not64 b24 &&& b20),
   b24 ^^^ (not64 b20 &&& b21)⟩

/-- The 24-round Keccak-f[1600] permutation. -/
def keccakF (s : KState) : KState :=
  keccakRC.foldl keccakRound s

/-- Little-endian 64-bit lane from the first `n` bytes of a list. -/
def laneOfBytes : Nat → List Nat → Nat
  | 0, _ => 0
  | _ + 1, [] => 0
  | n + 1, b :: bs => b + 256 * laneOfBytes n bs

/-- The 17 rate lanes of a 136-byte block. -/
def blockLanes (block : List Nat) : List Nat :=
  (List.range 17).map fun i => laneOfBytes 8 (block.drop (8 * i))

/-- XOR one 136-byte block into the rate portion of the state. -/
def absorbBlock (s : KState) (block : List Nat) : KState :=
  let lanes := blockLanes block
  ⟨s.a0 ^^^ lanes.getD 0 0, s.a1 ^^^ lanes.getD 1 0, s.a2 ^^^ lanes.getD 2 0, s.a3 ^^^ lanes.getD 3 0, s.a4 ^^^ lanes.getD 4 0, s.a5 ^^^ lanes.getD 5 0, s.a6 ^^^ lanes.getD 6 0, s.a7 ^^^ lanes.getD 7 0, s.a8 ^^^ lanes.getD 8 0, s.a9 ^^^ lanes.getD 9 0, s.a10 ^^^ lanes.getD 10 0, s.a11 ^^^ lanes.getD 11 0, s.a12 ^^^ lanes.getD 12 0, s.a13 ^^^ lanes.getD 13 0, s.a14 ^^^ lanes.getD 14 0, s.a15 ^^^ lanes.getD 15 0, s.a16 ^^^ lanes.getD 16 0, s.a17, s.a18, s.a19, s.a20, s.a21, s.a22, s.a23, s.a24⟩

/-- Split a byte list into 136-byte blocks (first argument is fuel, called
with the list length). -/
def chunks136 : Nat → List Nat → List (List Nat)
  | 0, _ => []
  | _ + 1, [] => []
  | fuel + 1, b :: bs => (b :: bs).take 136 :: chunks136 fuel ((b :: bs).drop 136)

/-- Absorb all blocks into the sponge. -/
def keccakAbsorb (s : KState) (blocks : List (List Nat)) : KState :=
  blocks.foldl (fun st block => keccakF (absorbBlock st block)) s

def keccakPad (len : Nat) : List Nat :=
  let padLen := 136 - len % 136
  if padLen = 1 then [0x81]
  else 0x01 :: (List.replicate (padLen - 2) 0 ++ [0x80])

/-- The 8 bytes of a lane, little-endian. -/
def bytesOfLane (x : Nat) : List Nat :=
  (List.range 8).map fun i => (x >>> (8 * i)) &&& 0xff

/-- The all-zero initial sponge state. -/
def keccakInit : KState := ⟨0, 0, 0, 0, 0, 0, 0, 0, 0, 0, 0, 0, 0, 0, 0, 0, 0, 0, 0, 0, 0, 0, 0, 0, 0⟩

def keccak256 (msg : List Nat) : List Nat :=
  let padded := msg ++ keccakPad msg.length
  let s := keccakAbsorb keccakInit (chunks136 padded.length padded)
  bytesOfLane s.a0 ++ bytesOfLane s.a1 ++ bytesOfLane s.a2 ++ bytesOfLane s.a3

/-! ## Hex strings and bytes -/

/-- Value of a hex digit, upper or lower case (as viem's hex parser). -/
def hexDigitVal (c : Char) : Nat :=
  if 97 ≤ c.toNat then c.toNat - 87
  else if 65 ≤ c.toNat then c.toNat - 55
  else c.toNat - 48

/-- Parse pairs of hex digits into bytes. -/
def hexToBytes : List Char → List Nat
  | c1 :: c2 :: rest => (16 * hexDigitVal c1 + hexDigitVal c2) :: hexToBytes rest
  | _ => []

/-- Lowercase hex digit of a value below 16. -/
def hexDigitChar (n : Nat) : Char :=
  if n < 10 then Char.ofNat (48 + n) else Char.ofNat (87 + n)

/-- Lowercase hex rendering of a byte list, two digits per byte. -/
def bytesToHexChars : List Nat → List Char
  | [] => []
  | b :: bs => hexDigitChar (b / 16 % 16) :: hexDigitChar (b % 16) :: bytesToHexChars bs

/-! ## Constants of `flap.ts` -/

/-- Flap Portal contract address on BSC (module constant in the source). -/
def FLAP_PORTAL_ADDRESS : String := "0xe2cE6ab80874Fa9Fa2aAE65D277Dd6B8e65C9De0"

/-- Token implementation address for non-tax tokens (module constant). -/
def NON_TAX_TOKEN_IMPL : String := "0x8B4329947e34B6d56D71A3385caC122BaDe7d78D"

/-- The 20 bytes of a `0x`-prefixed address string. -/
def addressBytes (s : String) : List Nat := hexToBytes (s.data.drop 2)

/-- Embedding of `s.slice(2).toLowerCase()` on an address string. -/
def lowerHexOfAddress (s : String) : List Char := (s.data.drop 2).map Char.toLower

/-- The minimal-proxy bytecode built in `predictVanityTokenAddress`:
`'0x3d602d80600a3d3981f3363d3d373d3d3d363d73' +
NON_TAX_TOKEN_IMPL.slice(2).toLowerCase() + '5af43d82803e903d91602b57fd5bf3'`,
parsed to bytes (viem strips the `0x`). -/
def vanityBytecode : List Nat :=
  hexToBytes ("3d602d80600a3d3981f3363d3d373d3d3d363d73".data
    ++ lowerHexOfAddress NON_TAX_TOKEN_IMPL
    ++ "5af43d82803e903d91602b57fd5bf3".data)

/-! ## CREATE2 address derivation (viem `getContractAddress`) -/

/-- The CREATE2 derivation used by viem: last 20 bytes of
`keccak256(0xff ++ from ++ salt ++ keccak256(bytecode))`. -/
def create2Address (deployer salt bytecode : List Nat) : List Nat :=
  (keccak256 ([0xff] ++ deployer ++ salt ++ keccak256 bytecode)).drop 12

/-- Function `predictVanityTokenAddress` of `flap.ts`: CREATE2 from the Flap portal
with the spliced minimal-proxy bytecode. -/
def predictVanityTokenAddress (salt : List Nat) : List Nat :=
  create2Address (addressBytes FLAP_PORTAL_ADDRESS) salt vanityBytecode

/-- Embedding of `addr.toLowerCase()` on the `0x`-prefixed rendering of a predicted
address (checksum casing is erased by the source's `toLowerCase()`). -/
def addressHexLower (a : List Nat) : List Char :=
  '0' :: 'x' :: bytesToHexChars a

/-! ## The vanity salt search of `findVanityTokenSalt` -/

/-- The hex string the source builds from the 32 random seed bytes: the
two characters `0x` followed by 64 lowercase hex digits. -/
def seedHexString (seed : List Nat) : List Char :=
  '0' :: 'x' :: bytesToHexChars seed

/-- UTF-8 bytes of an ASCII char list (what viem's `toHex` hex-encodes when
handed a string). -/
def utf8Bytes (cs : List Char) : List Nat := cs.map Char.toNat

/-- Embedding of `salt = keccak256(toHex(seed))` of `flap.ts`: since `seed` is a string,
viem's `toHex` encodes the 66 characters of the hex string itself, so the
initial salt hashes the ASCII bytes of the string, not the raw 32 bytes. -/
def initialVanitySalt (seed : List Nat) : List Nat :=
  keccak256 (utf8Bytes (seedHexString seed))

/-- Constant `const suffix = '8888'` of `findVanityTokenSalt`. -/
def vanitySuffix : List Char := "8888".data

/-- The `while (!predict(salt).toLowerCase().endsWith(suffix))` loop,
fuel-indexed (the source loop is unbounded); carries the `iterations`
counter and returns `{salt, address: predict(salt)}` with the counter. -/
def vanityLoop (predict : List Nat → List Nat) (suffix : List Char) :
    Nat → List Nat → Nat → Option (List Nat × List Nat × Nat)
  | 0, _, _ => none
  | fuel + 1, salt, iterations =>
    if suffix.isSuffixOf (addressHexLower (predict salt)) then
      some (salt, predict salt, iterations)
    else
      vanityLoop predict suffix fuel (keccak256 salt) (iterations + 1)

/-- Function `findVanityTokenSalt` of `flap.ts` (fuel-indexed): seed the salt, loop
until the predicted address ends in `8888`, return `{salt, address}`. -/
def findVanityTokenSalt (seed : List Nat) (fuel : Nat) :
    Option (List Nat × List Nat) :=
  (vanityLoop predictVanityTokenAddress vanitySuffix fuel
    (initialVanitySalt seed) 0).map fun r => (r.1, r.2.1)

/-- Modelled from the spec: the §4.1 contract
`findVanitySalt(deployer, implementationTemplate, suffix) -> {salt, address}`
generalises `findVanityTokenSalt`, whose deployer, implementation template
and suffix are hard-coded constants in the source.  The minimal-proxy
bytecode is built exactly as the source builds it. -/
def eip1167Bytecode (implementationTemplate : String) : List Nat :=
  hexToBytes ("3d602d80600a3d3981f3363d3d373d3d3d363d73".data
    ++ lowerHexOfAddress implementationTemplate
    ++ "5af43d82803e903d91602b57fd5bf3".data)

/-- Modelled from the spec: `findVanitySalt(deployer, implementationTemplate,
suffix)` of §4.1, run from a given random seed with the source's loop body;
also returns the iteration counter the source logs. -/
def findVanitySalt (deployer implementationTemplate suffix : String)
    (seed : List Nat) (fuel : Nat) : Option (List Nat × List Nat × Nat) :=
  vanityLoop
    (fun s => create2Address (addressBytes deployer) s
      (eip1167Bytecode implementationTemplate))
    suffix.data fuel (initialVanitySalt seed) 0

/-- The hash chain `salt₀, keccak256(salt₀), keccak256(keccak256(salt₀)), …`
walked by the search. -/
def saltChain (s0 : List Nat) : Nat → List Nat
  | 0 => s0
  | n + 1 => keccak256 (saltChain s0 n)

set_option maxRecDepth 100000
set_option maxHeartbeats 4000000

/-! ## Concrete inputs used by witnesses and counterexamples -/

/-- The all-zero 32-byte seed. -/
def zeroSeed : List Nat := List.replicate 32 0

/-- Value of `initialVanitySalt zeroSeed`, as a literal
(cross-checked against an independent Keccak implementation). -/
def saltA : List Nat :=
  [0x4f, 0x64, 0xfe, 0x1c, 0xe6, 0x13, 0x54, 0x6d, 0x34, 0xd6, 0x66, 0xd8,
   0x25, 0x8c, 0x13, 0xc6, 0x29, 0x68, 0x20, 0xfd, 0x13, 0x11, 0x4d, 0x78,
   0x42, 0x03, 0xfe, 0xb9, 0x12, 0x76, 0xe8, 0x38]

/-- Value of `predictVanityTokenAddress saltA`, as a literal. -/
def saltA_addr : List Nat :=
  [0xbf, 0xd8, 0xf1, 0x40, 0x3c, 0x49, 0x07, 0xd1, 0xff, 0x96, 0x4c, 0xa0,
   0x3c, 0x20, 0x63, 0xad, 0x32, 0x2e, 0xf3, 0x8a]

/-- The 32-byte big-endian seed `24351`: its salt chain reaches an address
ending in `8888` after two re-hashes. -/
def seedB : List Nat := List.replicate 30 0 ++ [0x5f, 0x1f]

/-- The accepted salt of the search run from `seedB`. -/
def saltB : List Nat :=
  [0xdf, 0x13, 0xac, 0xc4, 0x63, 0x3b, 0xa6, 0x31, 0xeb, 0x64, 0xe7, 0x47,
   0x7f, 0x8a, 0xe6, 0x8e, 0x20, 0x03, 0xb0, 0xd7, 0x8e, 0xf1, 0xde, 0x2a,
   0xea, 0x41, 0xd3, 0x84, 0x2e, 0x8e, 0xa9, 0xbf]

/-- Value of `predictVanityTokenAddress saltB`: it ends in hex `8888`. -/
def addrB : List Nat :=
  [0x51, 0x5c, 0x33, 0xfa, 0xec, 0x3d, 0x30, 0xd7, 0x9e, 0x5f, 0x8c, 0xf7,
   0x38, 0xc8, 0xe6, 0x09, 0x4b, 0xd3, 0x88, 0x88]

/-! ## `FlapService.createToken` log scanning -/

/-- Result of `decodeEventLog` on one receipt log: the event name and the
`token` argument (an address, as a `Nat` below 2^160; the zero address
is `0`). -/
structure DecodedEvent where
  eventName : String
  token : Nat
deriving DecidableEq

/-- One receipt log as `createToken` sees it: whether `log.topics[0]` is
present (truthy), and the outcome of `decodeEventLog` (`none` models a
thrown decode error, caught and skipped by the source). -/
structure TxLog where
  hasTopic : Bool
  decoded : Option DecodedEvent
deriving DecidableEq

/-- The `token` argument of a log that decodes to a `TokenCreated` event,
if any; mirrors the source's guard chain. -/
def decodesToTokenCreated (l : TxLog) : Option Nat :=
  if l.hasTopic then
    match l.decoded with
    | some d => if d.eventName = "TokenCreated" then some d.token else none
    | none => none
  else none

/-- The `for (const log of receipt.logs)` loop of `createToken`:
`tokenAddress` starts at the zero address, is overwritten by the first
decoded `TokenCreated` event's `token` (then `break`), and logs that fail
to decode or have no topic are skipped. -/
def scanLogs : List TxLog → Nat → Nat
  | [], acc => acc
  | l :: ls, acc =>
    if l.hasTopic then
      match l.decoded with
      | some d => if d.eventName = "TokenCreated" then d.token else scanLogs ls acc
      | none => scanLogs ls acc
    else scanLogs ls acc

/-- Lines 186-211 of `flap.ts`: scan the receipt logs from the zero
address; throw `'Token address not found in transaction logs'` when the
result is still the zero address, else return it. -/
def extractTokenAddress (logs : List TxLog) : Except String Nat :=
  let tokenAddress := scanLogs logs 0
  if tokenAddress = 0 then
    Except.error "Token address not found in transaction logs"
  else Except.ok tokenAddress

/-! ## `FlapService.sellTokens` / `sellAllTokens` -/

/-- A contract write sent by the wallet client: the ERC-20 `approve` or the
portal `sell` call. -/
inductive FlapTx where
  | approve (tokenAddress : Nat) (spender : String) (amount : Nat)
  | sell (tokenAddress : Nat) (amount : Nat)
deriving DecidableEq

/-- Method `FlapService.sellTokens`: approve the portal for `amount`, then call
`sell(tokenAddress, amount, 0)`; returns the writes in order. -/
def sellTokens (tokenAddress amount : Nat) : List FlapTx :=
  [FlapTx.approve tokenAddress FLAP_PORTAL_ADDRESS amount,
   FlapTx.sell tokenAddress amount]

/-- Method `FlapService.sellAllTokens`: read the balance; if it is zero return
without any write, else sell exactly the read balance. -/
def sellAllTokens (tokenAddress balance : Nat) : List FlapTx :=
  if balance = 0 then [] else sellTokens tokenAddress balance

/-! ## Known-answer checks for the Keccak embedding -/

example : keccak256 [] =
    [0xc5, 0xd2, 0x46, 0x01, 0x86, 0xf7, 0x23, 0x3c, 0x92, 0x7e, 0x7d, 0xb2,
     0xdc, 0xc7, 0x03, 0xc0, 0xe5, 0x00, 0xb6, 0x53, 0xca, 0x82, 0x27, 0x3b,
     0x7b, 0xfa, 0xd8, 0x04, 0x5d, 0x85, 0xa4, 0x70] := by decide

example : keccak256 (List.replicate 32 0) =
    [0x29, 0x0d, 0xec, 0xd9, 0x54, 0x8b, 0x62, 0xa8, 0xd6, 0x03, 0x45, 0xa9,
     0x88, 0x38, 0x6f, 0xc8, 0x4b, 0xa6, 0xbc, 0x95, 0x48, 0x40, 0x08, 0xf6,
     0x36, 0x2f, 0x93, 0x16, 0x0e, 0xf3, 0xe5, 0x63] := by decide

/-! ## Helper lemmas -/

lemma isPrefixOf_nil_left (l : List Char) : List.isPrefixOf ([] : List Char) l = true := by
  cases l <;> rfl

lemma isSuffixOf_nil_left (l : List Char) : List.isSuffixOf ([] : List Char) l = true := by
  simp [List.isSuffixOf, isPrefixOf_nil_left]

lemma saltChain_shift (s0 : List Nat) (n : Nat) :
    saltChain (keccak256 s0) n = saltChain s0 (n + 1) := by
  induction n with
  | zero => rfl
  | succ n ih => simp [saltChain, ih]

/-- What a successful run of the search loop guarantees: the returned
address is the prediction at the returned salt, it matches the suffix, the
salt is the `n`-th element of the hash chain from the starting salt, the
counter advanced by exactly `n`, and no earlier chain element matched. -/
lemma vanityLoop_spec (predict : List Nat → List Nat) (suffix : List Char) :
    ∀ (fuel : Nat) (s0 : List Nat) (i0 : Nat) (salt addr : List Nat) (iters : Nat),
      vanityLoop predict suffix fuel s0 i0 = some (salt, addr, iters) →
      ∃ n, iters = i0 + n ∧ salt = saltChain s0 n ∧ addr = predict salt ∧
        suffix.isSuffixOf (addressHexLower (predict salt)) = true ∧
        ∀ m, m < n → suffix.isSuffixOf (addressHexLower (predict (saltChain s0 m))) = false := by
  intro fuel
  induction fuel with
  | zero =>
    intro s0 i0 salt addr iters h
    simp [vanityLoop] at h
  | succ fuel ih =>
    intro s0 i0 salt addr iters h
    simp only [vanityLoop] at h
    split at h
    · rename_i hc
      simp only [Option.some.injEq, Prod.mk.injEq] at h
      obtain ⟨h1, h2, h3⟩ := h
      refine ⟨0, by omega, by simp [saltChain, h1], ?_, ?_, ?_⟩
      · rw [← h1, ← h2]
      · rw [← h1]; exact hc
      · intro m hm; exact absurd hm (Nat.not_lt_zero m)
    · rename_i hc
      obtain ⟨n, hn1, hn2, hn3, hn4, hn5⟩ := ih (keccak256 s0) (i0 + 1) salt addr iters h
      refine ⟨n + 1, by omega, ?_, hn3, hn4, ?_⟩
      · rw [hn2, saltChain_shift]
      · intro m hm
        cases m with
        | zero => exact Bool.eq_false_iff.mpr hc
        | succ m =>
          have := hn5 m (by omega)
          rwa [saltChain_shift] at this

lemma bytesToHexChars_length (bs : List Nat) :
    (bytesToHexChars bs).length = 2 * bs.length := by
  induction bs with
  | nil => rfl
  | cons b bs ih => simp [bytesToHexChars, ih]; omega

lemma bytesOfLane_length (x : Nat) : (bytesOfLane x).length = 8 := by
  simp [bytesOfLane]

lemma keccak256_length (msg : List Nat) : (keccak256 msg).length = 32 := by
  simp [keccak256, bytesOfLane_length]

/-! ## Claim theorems -/

/-- Claim C1: whenever the vanity salt search (`findVanitySalt` /
`findVanityTokenSalt`) returns a `{salt, address}` pair, the returned
address is the CREATE2-predicted address for the returned salt and its
lowercase hex representation ends with the configured suffix; in
particular this holds for every `(deployer, implementationTemplate,
suffix)` on which the search terminates. -/
theorem vanity_search_returns_matching_predicted_address :
    (∀ (deployer impl suffix : String) (seed : List Nat) (fuel : Nat)
        (salt addr : List Nat) (iters : Nat),
        findVanitySalt deployer impl suffix seed fuel = some (salt, addr, iters) →
        addr = create2Address (addressBytes deployer) salt (eip1167Bytecode impl) ∧
        suffix.data.isSuffixOf (addressHexLower addr) = true) ∧
    (∀ (seed : List Nat) (fuel : Nat) (salt addr : List Nat),
        findVanityTokenSalt seed fuel = some (salt, addr) →
        addr = predictVanityTokenAddress salt ∧
        vanitySuffix.isSuffixOf (addressHexLower addr) = true) := by
  constructor
  · intro deployer impl suffix seed fuel salt addr iters h
    obtain ⟨n, _, _, h3, h4, _⟩ :=
      vanityLoop_spec _ suffix.data fuel (initialVanitySalt seed) 0 salt addr iters h
    exact ⟨h3, by rw [h3]; exact h4⟩
  · intro seed fuel salt addr h
    unfold findVanityTokenSalt at h
    obtain ⟨⟨salt', addr', iters⟩, hr, hmap⟩ := Option.map_eq_some'.mp h
    simp only [Prod.mk.injEq] at hmap
    obtain ⟨hs, ha⟩ := hmap
    subst hs; subst ha
    obtain ⟨n, _, _, h3, h4, _⟩ :=
      vanityLoop_spec predictVanityTokenAddress vanitySuffix fuel
        (initialVanitySalt seed) 0 salt' addr' iters hr
    exact ⟨h3, by rw [h3]; exact h4⟩

/-- Witness for C1, at concrete inputs: the spec-level search with the
empty suffix returns after the first prediction, and the source search
run from the 32-byte big-endian seed `24351` returns a salt whose
predicted address ends in `8888`. -/
theorem vanity_search_returns_matching_predicted_address_witness :
    (saltA_addr = create2Address (addressBytes FLAP_PORTAL_ADDRESS) saltA
        (eip1167Bytecode NON_TAX_TOKEN_IMPL) ∧
      "".data.isSuffixOf (addressHexLower saltA_addr) = true) ∧
    (addrB = predictVanityTokenAddress saltB ∧
      vanitySuffix.isSuffixOf (addressHexLower addrB) = true) :=
  ⟨vanity_search_returns_matching_predicted_address.1 FLAP_PORTAL_ADDRESS
      NON_TAX_TOKEN_IMPL "" zeroSeed 1 saltA saltA_addr 0 (by decide),
   vanity_search_returns_matching_predicted_address.2 seedB 3 saltB addrB (by decide)⟩

/-- Claim C2, counterexample: for the all-zero 32-byte seed, the initial
salt computed by the source (`keccak256(toHex(seed))`, which hashes the
ASCII bytes of the seed's hex string) differs from keccak256 of the raw
32-byte seed value, so the claim as stated fails. -/
theorem initial_salt_differs_from_hash_of_raw_seed :
    initialVanitySalt zeroSeed ≠ keccak256 zeroSeed := by decide

/-- Claim C2 as amended: the initial salt is keccak256 applied to the
66-byte UTF-8/ASCII encoding of the seed's hex string (`0x` plus 64 hex
characters), not to the raw 32-byte seed: `toHex` re-encodes the already
hex-formatted string instead of parsing it. -/
theorem initial_salt_hashes_seed_hex_string (seed : List Nat)
    (h : seed.length = 32) :
    initialVanitySalt seed = keccak256 (utf8Bytes (seedHexString seed)) ∧
    (utf8Bytes (seedHexString seed)).length = 66 ∧
    utf8Bytes (seedHexString seed) ≠ seed := by
  refine ⟨rfl, ?_, ?_⟩
  · simp [utf8Bytes, seedHexString, bytesToHexChars_length, h]
  · intro heq
    have hlen := congrArg List.length heq
    simp [utf8Bytes, seedHexString, bytesToHexChars_length, h] at hlen

/-- Witness for the amended C2 at the all-zero seed. -/
theorem initial_salt_hashes_seed_hex_string_witness :
    initialVanitySalt zeroSeed = keccak256 (utf8Bytes (seedHexString zeroSeed)) ∧
    (utf8Bytes (seedHexString zeroSeed)).length = 66 ∧
    utf8Bytes (seedHexString zeroSeed) ≠ zeroSeed :=
  initial_salt_hashes_seed_hex_string zeroSeed (by decide)

/-- Claim C3: the CREATE2 address prediction is a deterministic pure
function of `(deployer, salt, bytecode)` — recomputing it on identical
inputs yields an identical result — and that result is a 20-byte address. -/
theorem create2_address_deterministic (deployer salt bytecode : List Nat) :
    create2Address deployer salt bytecode = create2Address deployer salt bytecode ∧
    (create2Address deployer salt bytecode).length = 20 := by
  refine ⟨rfl, ?_⟩
  simp [create2Address, keccak256_length]

/-- Claim C5: the bytecode whose hash enters the CREATE2 formula is the
EIP-1167 template `0x3d602d80600a3d3981f3363d3d373d3d3d363d73`, then the
20 bytes of the implementation template address, then
`0x5af43d82803e903d91602b57fd5bf3`. -/
theorem vanity_bytecode_is_eip1167_splice :
    vanityBytecode =
      hexToBytes "3d602d80600a3d3981f3363d3d373d3d3d363d73".data
        ++ addressBytes NON_TAX_TOKEN_IMPL
        ++ hexToBytes "5af43d82803e903d91602b57fd5bf3".data ∧
    (addressBytes NON_TAX_TOKEN_IMPL).length = 20 ∧
    ∀ salt, predictVanityTokenAddress salt =
      (keccak256 ([0xff] ++ addressBytes FLAP_PORTAL_ADDRESS ++ salt ++
        keccak256 vanityBytecode)).drop 12 :=
  ⟨by decide, by decide, fun _ => rfl⟩

/-- Claim C6: a returned salt lies on the hash chain
`salt₀, keccak256(salt₀), keccak256(keccak256(salt₀)), …` from the initial
salt, its predicted address's lowercase hex ends with the suffix, and no
earlier chain element's predicted address does. -/
theorem vanity_salts_lie_on_hash_chain :
    ∀ (seed : List Nat) (fuel : Nat) (salt addr : List Nat),
      findVanityTokenSalt seed fuel = some (salt, addr) →
      ∃ n, salt = saltChain (initialVanitySalt seed) n ∧
        vanitySuffix.isSuffixOf
          (addressHexLower (predictVanityTokenAddress salt)) = true ∧
        ∀ m, m < n →
          vanitySuffix.isSuffixOf
            (addressHexLower (predictVanityTokenAddress
              (saltChain (initialVanitySalt seed) m))) = false := by
  intro seed fuel salt addr h
  unfold findVanityTokenSalt at h
  obtain ⟨⟨salt', addr', iters⟩, hr, hmap⟩ := Option.map_eq_some'.mp h
  simp only [Prod.mk.injEq] at hmap
  obtain ⟨hs, _⟩ := hmap
  subst hs
  obtain ⟨n, _, hn2, _, hn4, hn5⟩ :=
    vanityLoop_spec predictVanityTokenAddress vanitySuffix fuel
      (initialVanitySalt seed) 0 salt' addr' iters hr
  exact ⟨n, hn2, hn4, hn5⟩

/-- Witness for C6: the search run from `seedB` returns `saltB`, which is
on the hash chain and is the first chain element whose address ends in
`8888`. -/
theorem vanity_salts_lie_on_hash_chain_witness :
    ∃ n, saltB = saltChain (initialVanitySalt seedB) n ∧
      vanitySuffix.isSuffixOf
        (addressHexLower (predictVanityTokenAddress saltB)) = true ∧
      ∀ m, m < n →
        vanitySuffix.isSuffixOf
          (addressHexLower (predictVanityTokenAddress
            (saltChain (initialVanitySalt seedB) m))) = false :=
  vanity_salts_lie_on_hash_chain seedB 3 saltB addrB (by decide)

/-- Claim C7: with the empty suffix the first generated salt is accepted
immediately — the search returns the initial salt with iteration counter
`0` — for any deployer, implementation template, seed, and positive fuel. -/
theorem empty_suffix_accepts_first_salt :
    ∀ (deployer impl : String) (seed : List Nat) (fuel : Nat),
      findVanitySalt deployer impl "" seed (fuel + 1) =
        some (initialVanitySalt seed,
          create2Address (addressBytes deployer) (initialVanitySalt seed)
            (eip1167Bytecode impl), 0) := by
  intro deployer impl seed fuel
  have h0 : ("" : String).data = [] := rfl
  simp [findVanitySalt, vanityLoop, h0, isSuffixOf_nil_left]

lemma scanLogs_of_all_none :
    ∀ (logs : List TxLog) (acc : Nat),
      (∀ l ∈ logs, decodesToTokenCreated l = none) → scanLogs logs acc = acc := by
  intro logs
  induction logs with
  | nil => intro acc _; rfl
  | cons l ls ih =>
    intro acc hall
    have hl := hall l (List.mem_cons_self l ls)
    have hrest : ∀ x ∈ ls, decodesToTokenCreated x = none :=
      fun x hx => hall x (List.mem_cons_of_mem l hx)
    simp only [scanLogs]
    split
    · rename_i ht
      split
      · rename_i d hd
        split
        · rename_i hname
          simp [decodesToTokenCreated, ht, hd, hname] at hl
        · exact ih acc hrest
      · exact ih acc hrest
    · exact ih acc hrest

lemma scanLogs_result :
    ∀ (logs : List TxLog) (acc : Nat),
      scanLogs logs acc = acc ∨
        ∃ l ∈ logs, decodesToTokenCreated l = some (scanLogs logs acc) := by
  intro logs
  induction logs with
  | nil => intro acc; left; rfl
  | cons l ls ih =>
    intro acc
    simp only [scanLogs]
    split
    · rename_i ht
      split
      · rename_i d hd
        split
        · rename_i hname
          right
          exact ⟨l, List.mem_cons_self l ls,
            by simp [decodesToTokenCreated, ht, hd, hname]⟩
        · rcases ih acc with h | ⟨l', hl', h'⟩
          · left; exact h
          · right; exact ⟨l', List.mem_cons_of_mem l hl', h'⟩
      · rcases ih acc with h | ⟨l', hl', h'⟩
        · left; exact h
        · right; exact ⟨l', List.mem_cons_of_mem l hl', h'⟩
    · rcases ih acc with h | ⟨l', hl', h'⟩
      · left; exact h
      · right; exact ⟨l', List.mem_cons_of_mem l hl', h'⟩

/-- Claim C9: `createToken` throws
`'Token address not found in transaction logs'` when no receipt log
decodes to a `TokenCreated` event, and when it returns, the returned
token address is non-zero and is the `token` argument of a decoded
`TokenCreated` event. -/
theorem createToken_token_address_spec :
    ∀ logs : List TxLog,
      ((∀ l ∈ logs, decodesToTokenCreated l = none) →
        extractTokenAddress logs =
          Except.error "Token address not found in transaction logs") ∧
      (∀ a, extractTokenAddress logs = Except.ok a →
        a ≠ 0 ∧ ∃ l ∈ logs, decodesToTokenCreated l = some a) := by
  intro logs
  constructor
  · intro hall
    simp [extractTokenAddress, scanLogs_of_all_none logs 0 hall]
  · intro a ha
    simp only [extractTokenAddress] at ha
    split at ha
    · exact absurd ha (by simp)
    · rename_i hne
      have haeq : scanLogs logs 0 = a := by
        simpa using ha
      rcases scanLogs_result logs 0 with h | ⟨l, hl, hsome⟩
      · exact absurd (haeq ▸ h) fun h0 => hne (by omega)
      · exact ⟨fun h0 => hne (by omega), ⟨l, hl, by rw [haeq] at hsome; exact hsome⟩⟩

/-- Witness for C9: a receipt with no decodable log throws, and a receipt
whose only log decodes to `TokenCreated` with token `5` returns `5`. -/
theorem createToken_token_address_spec_witness :
    (extractTokenAddress [TxLog.mk false none] =
      Except.error "Token address not found in transaction logs") ∧
    (5 ≠ 0 ∧ ∃ l ∈ [TxLog.mk true (some (DecodedEvent.mk "TokenCreated" 5))],
      decodesToTokenCreated l = some 5) :=
  ⟨(createToken_token_address_spec [TxLog.mk false none]).1 (by decide),
   (createToken_token_address_spec
      [TxLog.mk true (some (DecodedEvent.mk "TokenCreated" 5))]).2 5 rfl⟩

/-- Claim C10: `sellAllTokens` sends no transaction when the read balance
is zero, and otherwise approves and sells exactly the full read balance. -/
theorem sellAllTokens_zero_or_full_balance :
    ∀ (tokenAddress balance : Nat),
      (balance = 0 → sellAllTokens tokenAddress balance = []) ∧
      (balance ≠ 0 → sellAllTokens tokenAddress balance =
        [FlapTx.approve tokenAddress FLAP_PORTAL_ADDRESS balance,
         FlapTx.sell tokenAddress balance]) := by
  intro t b
  constructor
  · intro h; simp [sellAllTokens, h]
  · intro h; simp [sellAllTokens, sellTokens, h]

/-- Witness for C10: balance `0` sends nothing; balance `3` on token `7`
approves then sells exactly `3`. -/
theorem sellAllTokens_zero_or_full_balance_witness :
    sellAllTokens 7 0 = [] ∧
    sellAllTokens 7 3 =
      [FlapTx.approve 7 FLAP_PORTAL_ADDRESS 3, FlapTx.sell 7 3] :=
  ⟨(sellAllTokens_zero_or_full_balance 7 0).1 rfl,
   (sellAllTokens_zero_or_full_balance 7 3).2 (by decide)⟩
